import Mathlib

/-!
Verification development for `anki.py`, a CLI that reads a text file
containing a Python-literal list of 5-tuples
`(hanzi, pinyin, english, german, sentence)` and builds an Anki deck
archive via the external genanki library.

The program is embedded shallowly: file existence, the literal parse
result, and the success of the external archive write are explicit inputs
of the model; every print, the exit code, and the set of written output
files are recorded in an `Outcome` structure.
-/

namespace Ankigen

/-- Modelled from the spec: the values the literal-expression parser
(`ast.literal_eval`, external to this repository) can produce — sequences,
fixed-arity groups (tuples), text, numbers, booleans, none, and literal
mappings. By construction this grammar contains no executable form:
no function, call, or other code object is representable. -/
inductive Value : Type where
  | str : String → Value
  | int : Int → Value
  | bool : Bool → Value
  | none : Value
  | list : List Value → Value
  | tuple : List Value → Value
  | dict : List (Value × Value) → Value

/-- Single-quote a string, as Python f-string interpolation of a quoted
name does. -/
def sq (s : String) : String := "\x27" ++ s ++ "\x27"

mutual

/-- Python `str()` of a literal value, as interpolated into the entry
diagnostic by the f-string in `load_tuples_from_file`. -/
def Value.render : Value → String
  | .str s => sq s
  | .int n => toString n
  | .bool b => if b then "True" else "False"
  | .none => "None"
  | .list xs => "[" ++ renderItems xs ++ "]"
  | .tuple [x] => "(" ++ x.render ++ ",)"
  | .tuple xs => "(" ++ renderItems xs ++ ")"
  | .dict ps => "\x7b" ++ renderPairs ps ++ "\x7d"

/-- Comma-separated rendering of the items of a list or tuple literal. -/
def renderItems : List Value → String
  | [] => ""
  | [x] => x.render
  | x :: xs => x.render ++ ", " ++ renderItems xs

/-- Comma-separated rendering of the key-value pairs of a dict literal. -/
def renderPairs : List (Value × Value) → String
  | [] => ""
  | [(k, v)] => k.render ++ ": " ++ v.render
  | (k, v) :: ps => k.render ++ ": " ++ v.render ++ ", " ++ renderPairs ps

end

/-- `Error: File '{filename}' does not exist.` -/
def fileNotFoundMsg (filename : String) : String :=
  "Error: File " ++ sq filename ++ " does not exist."

/-- `Error parsing '{filename}': {e}` -/
def parseErrorMsg (filename e : String) : String :=
  "Error parsing " ++ sq filename ++ ": " ++ e

/-- `Error: Expected a list of tuples in '{filename}'.` -/
def notListMsg (filename : String) : String :=
  "Error: Expected a list of tuples in " ++ sq filename ++ "."

/-- `Error: Entry {idx} in '{filename}' is not a 5-tuple: {entry}` -/
def entryErrMsg (idx : Nat) (filename : String) (entry : Value) : String :=
  "Error: Entry " ++ toString idx ++ " in " ++ sq filename ++
    " is not a 5-tuple: " ++ entry.render

/-- `Anki deck successfully created: {output_file}` -/
def successMsg (output_file : String) : String :=
  "Anki deck successfully created: " ++ output_file

/-- `Error writing Anki deck to '{output_file}': {e}` -/
def writeErrMsg (output_file e : String) : String :=
  "Error writing Anki deck to " ++ sq output_file ++ ": " ++ e

/-- `isinstance(entry, tuple) and len(entry) == 5`: the per-entry check of
`load_tuples_from_file`. -/
def isFiveTuple : Value → Bool
  | .tuple xs => xs.length == 5
  | _ => false

/-- The `for idx, entry in enumerate(data)` validation loop: the index and
value of the first entry that fails `isFiveTuple`, if any. -/
def firstBad : List Value → Option (Nat × Value)
  | [] => Option.none
  | e :: rest =>
    if isFiveTuple e then (firstBad rest).map (fun p => (p.1 + 1, p.2))
    else some (0, e)

/-- `load_tuples_from_file(filename)`. The file-system and parser effects
are explicit inputs: `isfile` is `os.path.isfile(filename)`, and `parsed`
is the result of `ast.literal_eval` on the file content (`.error e` when
the parser raised with message `e`). Returns either the validated list or
the diagnostic printed before `sys.exit(1)`. -/
def load_tuples_from_file (filename : String) (isfile : Bool)
    (parsed : Except String Value) : Except String (List Value) :=
  if isfile = false then .error (fileNotFoundMsg filename)
  else
    match parsed with
    | .error e => .error (parseErrorMsg filename e)
    | .ok (.list data) =>
        match firstBad data with
        | some (idx, entry) => .error (entryErrMsg idx filename entry)
        | Option.none => .ok data
    | .ok _ => .error (notListMsg filename)

/-- A genanki note model (note type): numeric id, name, field slot names. -/
structure Model where
  model_id : Nat
  name : String
  fieldNames : List String

/-- A genanki note: its model and its field values, positionally bound. -/
structure Note where
  model : Model
  fields : List Value

/-- A genanki deck: numeric id, name, and its notes in insertion order. -/
structure Deck where
  deck_id : Nat
  name : String
  notes : List Note

/-- The five field slot names of the `chinese_model` in
`create_anki_deck`. -/
def chineseModelFields : List String :=
  ["Hanzi", "Pinyin", "English", "German", "Sentence"]

/-- The `chinese_model` constructed by `create_anki_deck`: name
`ChineseCharacterModel` with the five field slots. The template layouts
and stylesheet are static text not observed by any claim. -/
def chineseModel (model_id : Nat) : Model :=
  { model_id := model_id, name := "ChineseCharacterModel",
    fieldNames := chineseModelFields }

/-- The tuple unpacking `hanzi, pinyin, english, german, sentence = entry`.
In the source this is only reached on entries the loader validated as
5-tuples (a length-5 list would also unpack; any other shape would raise). -/
def entryFields : Value → List Value
  | .tuple xs => xs
  | .list xs => xs
  | v => [v]

/-- `create_anki_deck(tuples_list, deck_name, deck_id, model_id)`: builds
the deck and adds one note per entry, in input order, binding the entry's
five components positionally to the model's field slots. -/
def create_anki_deck (tuples_list : List Value) (deck_name : String)
    (deck_id : Nat) (model_id : Nat) : Deck :=
  { deck_id := deck_id, name := deck_name,
    notes := tuples_list.map
      (fun entry => { model := chineseModel model_id,
                      fields := entryFields entry }) }

/-- `create_anki_deck` at its default arguments, as called by `main`. -/
def create_anki_deck_defaults (tuples_list : List Value) : Deck :=
  create_anki_deck tuples_list "Chinese Vocabulary" 2059400110 1607392319

/-- The observable result of one program run: exit code, lines printed to
standard output and to standard error, output files written, and the deck
built (when construction was reached). -/
structure Outcome where
  exitCode : Nat
  stdoutLines : List String
  stderrLines : List String
  written : List String
  builtDeck : Option Deck

/-- `main()`. `argv` is `sys.argv` (program name at index 0); `isfile`
and `parsed` feed the loader; `write` is the result of the external
`genanki.Package(deck).write_to_file(output_file)` call (`.error e` when
it raised with message `e`), modelled per the spec as atomic: it either
writes the one complete archive or writes nothing. Every `print` in the
source goes to standard output. -/
def mainRun (argv : List String) (isfile : Bool)
    (parsed : Except String Value) (write : Except String Unit) : Outcome :=
  let input_file := argv.getD 1 "input.txt"
  let output_file := argv.getD 2 "textlekt2a.apkg"
  match load_tuples_from_file input_file isfile parsed with
  | .error msg =>
      { exitCode := 1, stdoutLines := [msg], stderrLines := [],
        written := [], builtDeck := Option.none }
  | .ok tuples_list =>
      let deck := create_anki_deck_defaults tuples_list
      match write with
      | .ok _ =>
          { exitCode := 0, stdoutLines := [successMsg output_file],
            stderrLines := [], written := [output_file],
            builtDeck := some deck }
      | .error e =>
          { exitCode := 1, stdoutLines := [writeErrMsg output_file e],
            stderrLines := [], written := [], builtDeck := some deck }

/-! ### Helper lemmas about the validation loop -/

/-- If every entry passes the 5-tuple check, the validation loop finds no
offending entry. -/
theorem firstBad_eq_none (l : List Value)
    (h : ∀ e ∈ l, isFiveTuple e = true) : firstBad l = Option.none := by
  induction l with
  | nil => rfl
  | cons e rest ih =>
      simp only [firstBad, h e (List.mem_cons_self e rest), if_pos rfl]
      rw [ih fun x hx => h x (List.mem_cons_of_mem e hx)]
      rfl

/-- If every entry of `good` passes the check and `bad` fails it, the
validation loop stops at `bad`, reporting index `good.length`. -/
theorem firstBad_append (good : List Value) (bad : Value) (rest : List Value)
    (hgood : ∀ x ∈ good, isFiveTuple x = true)
    (hbad : isFiveTuple bad = false) :
    firstBad (good ++ bad :: rest) = some (good.length, bad) := by
  induction good with
  | nil => simp [firstBad, hbad]
  | cons g gs ih =>
      have hg : isFiveTuple g = true := hgood g (List.mem_cons_self g gs)
      have ihres := ih fun x hx => hgood x (List.mem_cons_of_mem g hx)
      simp [firstBad, hg, ihres]

/-- The loop reports the index of the FIRST offending entry: if `l.get i`
fails the check and every earlier entry passes it, the loop yields
`(i, l.get i)`. -/
theorem firstBad_first (l : List Value) (i : Nat) (hi : i < l.length)
    (hbad : isFiveTuple (l.get ⟨i, hi⟩) = false)
    (hgood : ∀ j (hj : j < l.length), j < i → isFiveTuple (l.get ⟨j, hj⟩) = true) :
    firstBad l = some (i, l.get ⟨i, hi⟩) := by
  induction l generalizing i with
  | nil => exact absurd hi (Nat.not_lt_zero i)
  | cons e rest ih =>
      cases i with
      | zero => simp_all [firstBad]
      | succ k =>
          have he : isFiveTuple e = true := by
            have := hgood 0 (Nat.succ_pos _) (Nat.succ_pos _)
            simpa using this
          have hk : k < rest.length := Nat.lt_of_succ_lt_succ hi
          have ihres := ih k hk (by simpa using hbad)
            (fun j hj hji => by
              have := hgood (j + 1) (Nat.succ_lt_succ hj) (Nat.succ_lt_succ hji)
              simpa using this)
          simp only [firstBad, he, if_pos rfl, ihres]
          rfl

/-! ### Claim theorems -/

/-- C1: for every input file whose content parses to a list in which every
element is a 5-field group of text values, the program (with the external
archive write succeeding) terminates with exit code 0, writes exactly the
one output archive file, and prints one confirmation line naming it. -/
theorem valid_input_succeeds (argv : List String) (data : List Value)
    (hvalid : ∀ e ∈ data, ∃ h p en g s : String,
      e = .tuple [.str h, .str p, .str en, .str g, .str s]) :
    (mainRun argv true (.ok (.list data)) (.ok ())).exitCode = 0 ∧
    (mainRun argv true (.ok (.list data)) (.ok ())).written
      = [argv.getD 2 "textlekt2a.apkg"] ∧
    (mainRun argv true (.ok (.list data)) (.ok ())).stdoutLines
      = [successMsg (argv.getD 2 "textlekt2a.apkg")] := by
  have hall : ∀ e ∈ data, isFiveTuple e = true := by
    intro e he
    obtain ⟨h, p, en, g, s, rfl⟩ := hvalid e he
    rfl
  simp [mainRun, load_tuples_from_file, firstBad_eq_none data hall]

/-- C1 witness: a concrete two-record valid input succeeds. -/
theorem valid_input_succeeds_witness :
    (mainRun ["prog", "in.txt", "out.apkg"] true
      (.ok (.list [.tuple [.str "a", .str "b", .str "c", .str "d", .str "e"],
                   .tuple [.str "f", .str "g", .str "h", .str "i", .str "j"]]))
      (.ok ())).exitCode = 0 ∧
    (mainRun ["prog", "in.txt", "out.apkg"] true
      (.ok (.list [.tuple [.str "a", .str "b", .str "c", .str "d", .str "e"],
                   .tuple [.str "f", .str "g", .str "h", .str "i", .str "j"]]))
      (.ok ())).written = [(["prog", "in.txt", "out.apkg"] : List String).getD 2 "textlekt2a.apkg"] ∧
    (mainRun ["prog", "in.txt", "out.apkg"] true
      (.ok (.list [.tuple [.str "a", .str "b", .str "c", .str "d", .str "e"],
                   .tuple [.str "f", .str "g", .str "h", .str "i", .str "j"]]))
      (.ok ())).stdoutLines
        = [successMsg ((["prog", "in.txt", "out.apkg"] : List String).getD 2 "textlekt2a.apkg")] :=
  valid_input_succeeds ["prog", "in.txt", "out.apkg"] _
    (by
      intro e he
      simp only [List.mem_cons, List.not_mem_nil, or_false] at he
      rcases he with rfl | rfl
      · exact ⟨"a", "b", "c", "d", "e", rfl⟩
      · exact ⟨"f", "g", "h", "i", "j", rfl⟩)

/-- A record as a 5-tuple value. -/
def tuple5 (r : Value × Value × Value × Value × Value) : Value :=
  .tuple [r.1, r.2.1, r.2.2.1, r.2.2.2.1, r.2.2.2.2]

/-- C2: the deck built from a validated record list contains one card per
record, in input order, each record's five fields bound positionally to
the template's five field slots and passed through unmodified. -/
theorem deck_binds_fields_in_order
    (rs : List (Value × Value × Value × Value × Value))
    (deck_name : String) (deck_id model_id : Nat) :
    (create_anki_deck (rs.map tuple5) deck_name deck_id model_id).notes
      = rs.map (fun r =>
          { model := chineseModel model_id,
            fields := [r.1, r.2.1, r.2.2.1, r.2.2.2.1, r.2.2.2.2] }) ∧
    (chineseModel model_id).fieldNames
      = ["Hanzi", "Pinyin", "English", "German", "Sentence"] := by
  constructor
  · simp [create_anki_deck, tuple5, entryFields]
  · rfl

/-- C4: a successfully parsed input whose top-level value is not a list is
rejected with exit code 1 and no output file. -/
theorem nonlist_toplevel_rejected (argv : List String) (v : Value)
    (w : Except String Unit) (h : ∀ data, v ≠ .list data) :
    mainRun argv true (.ok v) w =
      { exitCode := 1,
        stdoutLines := [notListMsg (argv.getD 1 "input.txt")],
        stderrLines := [], written := [], builtDeck := Option.none } := by
  cases v with
  | list data => exact absurd rfl (h data)
  | str s => rfl
  | int n => rfl
  | bool b => rfl
  | none => rfl
  | tuple xs => rfl
  | dict ps => rfl

/-- C4 witness: a top-level dict is rejected with exit code 1 and no
output file. -/
theorem nonlist_toplevel_rejected_witness :
    mainRun ["prog"] true (.ok (.dict [])) (.ok ()) =
      { exitCode := 1,
        stdoutLines := [notListMsg ((["prog"] : List String).getD 1 "input.txt")],
        stderrLines := [], written := [], builtDeck := Option.none } :=
  nonlist_toplevel_rejected ["prog"] (.dict []) (.ok ())
    (fun data h => by cases h)

/-- C7: when the content is not a valid literal expression the parser
raises, and the program exits with code 1, prints the parse diagnostic,
writes no output file, and builds no deck. The parse result ranges over
`Value`, the literal-only grammar, in which no executable expression is
representable: nothing in the input is ever evaluated. -/
theorem parse_failure_rejected (argv : List String) (e : String)
    (w : Except String Unit) :
    mainRun argv true (.error e) w =
      { exitCode := 1,
        stdoutLines := [parseErrorMsg (argv.getD 1 "input.txt") e],
        stderrLines := [], written := [], builtDeck := Option.none } := rfl

/-- C8: for every input path not referencing an existing file — including
the default `input.txt` when no arguments are given — the program exits
with code 1, prints an error naming the path, and does so regardless of
any parse result (no parse is consulted) and builds no deck. -/
theorem missing_file_rejected (argv : List String) (prog : String)
    (parsed : Except String Value) (w : Except String Unit) :
    mainRun argv false parsed w =
      { exitCode := 1,
        stdoutLines := [fileNotFoundMsg (argv.getD 1 "input.txt")],
        stderrLines := [], written := [], builtDeck := Option.none } ∧
    mainRun [prog] false parsed w =
      { exitCode := 1, stdoutLines := [fileNotFoundMsg "input.txt"],
        stderrLines := [], written := [], builtDeck := Option.none } := by
  constructor
  · cases parsed <;> rfl
  · cases parsed <;> rfl

/-- C3: when the parsed list has an offending element, validation stops at
the first one: the program exits with code 1 and its single diagnostic
names exactly the index of the first element that is not a 5-tuple (later
offending elements are not reported). -/
theorem schema_error_reports_first_index (argv : List String)
    (data : List Value) (w : Except String Unit) (i : Nat)
    (hi : i < data.length)
    (hbad : isFiveTuple (data.get ⟨i, hi⟩) = false)
    (hgood : ∀ j (hj : j < data.length), j < i →
      isFiveTuple (data.get ⟨j, hj⟩) = true) :
    mainRun argv true (.ok (.list data)) w =
      { exitCode := 1,
        stdoutLines :=
          [entryErrMsg i (argv.getD 1 "input.txt") (data.get ⟨i, hi⟩)],
        stderrLines := [], written := [], builtDeck := Option.none } := by
  simp [mainRun, load_tuples_from_file, firstBad_first data i hi hbad hgood]

/-- C3 witness: in a list whose second and third elements are bad, the
diagnostic names index 1, the first offending position. -/
theorem schema_error_reports_first_index_witness :
    mainRun ["prog"] true
      (.ok (.list [.tuple [.str "a", .str "b", .str "c", .str "d", .str "e"],
                   .int 3, .str "x"])) (.ok ()) =
      { exitCode := 1,
        stdoutLines := [entryErrMsg 1 "input.txt" (.int 3)],
        stderrLines := [], written := [], builtDeck := Option.none } := by
  have h := schema_error_reports_first_index ["prog"]
    [.tuple [.str "a", .str "b", .str "c", .str "d", .str "e"], .int 3, .str "x"]
    (.ok ()) 1 (by decide) rfl
    (fun j hj hji => by
      have hj0 : j = 0 := by omega
      subst hj0; rfl)
  simpa using h

/-- C5: on every run the program either fully succeeds (exit code 0, the
one complete archive written) or fails with exit code 1, no output file,
and exactly one diagnostic line printed before exiting: there is no
partial-output mode and no silently swallowed error. -/
theorem all_or_nothing_run (argv : List String) (isfile : Bool)
    (parsed : Except String Value) (w : Except String Unit) :
    ((mainRun argv isfile parsed w).exitCode = 0 ∧
      (mainRun argv isfile parsed w).written
        = [argv.getD 2 "textlekt2a.apkg"]) ∨
    ((mainRun argv isfile parsed w).exitCode = 1 ∧
      (mainRun argv isfile parsed w).written = [] ∧
      (mainRun argv isfile parsed w).stdoutLines.length = 1) := by
  rcases hload : load_tuples_from_file (argv.getD 1 "input.txt") isfile parsed
    with msg | l
  · right; simp only [mainRun]; rw [hload]; simp
  · cases w with
    | error e => right; simp only [mainRun]; rw [hload]; simp
    | ok u => left; simp only [mainRun]; rw [hload]; simp

/-- C6: whenever a deck is built, regardless of input content, it has
numeric key 2059400110 and name "Chinese Vocabulary", and every card's
template has numeric key 1607392319 — constants not derived from the
input. -/
theorem deck_constants (argv : List String) (isfile : Bool)
    (parsed : Except String Value) (w : Except String Unit) (d : Deck)
    (h : (mainRun argv isfile parsed w).builtDeck = some d) :
    d.deck_id = 2059400110 ∧ d.name = "Chinese Vocabulary" ∧
    ∀ n ∈ d.notes, n.model.model_id = 1607392319 := by
  rcases hload : load_tuples_from_file (argv.getD 1 "input.txt") isfile parsed
    with msg | l
  · simp only [mainRun] at h; rw [hload] at h; simp at h
  · have hd : d = create_anki_deck_defaults l := by
      cases w <;> simp only [mainRun] at h <;> rw [hload] at h <;>
        simp at h <;> exact h.symm
    subst hd
    refine ⟨rfl, rfl, ?_⟩
    intro n hn
    simp [create_anki_deck_defaults, create_anki_deck] at hn
    obtain ⟨e, _, rfl⟩ := hn
    rfl

/-- C6 witness: the deck built on a concrete run carries the three fixed
identifiers. -/
theorem deck_constants_witness :
    (create_anki_deck_defaults []).deck_id = 2059400110 ∧
    (create_anki_deck_defaults []).name = "Chinese Vocabulary" ∧
    ∀ n ∈ (create_anki_deck_defaults []).notes,
      n.model.model_id = 1607392319 :=
  deck_constants ["prog"] true (.ok (.list [])) (.ok ())
    (create_anki_deck_defaults []) rfl

/-- C9 counterexample: on a concrete failure (missing input file) the
program exits with code 1, yet the error stream receives nothing — the
diagnostic line goes to standard output, contradicting the claim that
failures put their diagnostic on the error stream. -/
theorem failure_diagnostic_not_on_stderr :
    (mainRun ["prog"] false (.ok (.list [])) (.ok ())).exitCode = 1 ∧
    (mainRun ["prog"] false (.ok (.list [])) (.ok ())).stderrLines = [] ∧
    (mainRun ["prog"] false (.ok (.list [])) (.ok ())).stdoutLines
      = [fileNotFoundMsg "input.txt"] :=
  ⟨rfl, rfl, rfl⟩

/-- C9 amended: on every failure the distinct human-readable diagnostic is
written to the standard output stream (via `print`); nothing is ever
written to the error stream. -/
theorem failure_diagnostic_on_stdout (argv : List String) (isfile : Bool)
    (parsed : Except String Value) (w : Except String Unit) :
    (mainRun argv isfile parsed w).stderrLines = [] ∧
    ((mainRun argv isfile parsed w).exitCode = 1 →
      (mainRun argv isfile parsed w).stdoutLines.length = 1) := by
  rcases hload : load_tuples_from_file (argv.getD 1 "input.txt") isfile parsed
    with msg | l
  · constructor
    · simp only [mainRun]; rw [hload]
    · intro _; simp only [mainRun]; rw [hload]; simp
  · cases w with
    | error e =>
        constructor
        · simp only [mainRun]; rw [hload]
        · intro _; simp only [mainRun]; rw [hload]; simp
    | ok u =>
        constructor
        · simp only [mainRun]; rw [hload]
        · intro hc
          simp only [mainRun] at hc; rw [hload] at hc; simp at hc

/-- C9 amended witness: a concrete failing run has an empty error stream
and its one diagnostic on standard output. -/
theorem failure_diagnostic_on_stdout_witness :
    (mainRun ["prog"] false (.ok (.list [])) (.ok ())).stderrLines = [] ∧
    (mainRun ["prog"] false (.ok (.list [])) (.ok ())).stdoutLines.length
      = 1 :=
  ⟨(failure_diagnostic_on_stdout ["prog"] false (.ok (.list [])) (.ok ())).1,
   (failure_diagnostic_on_stdout ["prog"] false (.ok (.list []))
      (.ok ())).2 rfl⟩

/-- C10: validation requires the tuple type specifically, not merely
arity 5: a 5-element list element is rejected with the schema diagnostic
at its index and exit code 1, even though it has exactly 5 values. -/
theorem five_element_list_rejected (argv : List String) (good : List Value)
    (a b c d e : Value) (rest : List Value) (w : Except String Unit)
    (hgood : ∀ x ∈ good, isFiveTuple x = true) :
    mainRun argv true
      (.ok (.list (good ++ .list [a, b, c, d, e] :: rest))) w =
      { exitCode := 1,
        stdoutLines := [entryErrMsg good.length (argv.getD 1 "input.txt")
          (.list [a, b, c, d, e])],
        stderrLines := [], written := [], builtDeck := Option.none } := by
  have hb : isFiveTuple (.list [a, b, c, d, e]) = false := rfl
  simp [mainRun, load_tuples_from_file,
    firstBad_append good (.list [a, b, c, d, e]) rest hgood hb]

/-- C10 witness: a singleton input whose only element is a 5-element list
is rejected at index 0. -/
theorem five_element_list_rejected_witness :
    mainRun ["prog"] true
      (.ok (.list [.list [.str "a", .str "b", .str "c", .str "d", .str "e"]]))
      (.ok ()) =
      { exitCode := 1,
        stdoutLines := [entryErrMsg 0 "input.txt"
          (.list [.str "a", .str "b", .str "c", .str "d", .str "e"])],
        stderrLines := [], written := [], builtDeck := Option.none } := by
  have h := five_element_list_rejected ["prog"] [] (.str "a") (.str "b")
    (.str "c") (.str "d") (.str "e") [] (.ok ())
    (fun x hx => absurd hx (List.not_mem_nil x))
  simpa using h

end Ankigen
